import Mathlib

/-!
# Verification of the voice interaction coordinator of mylee04/email-manager

This file shallowly embeds the two content-script variants of the repository
that implement the capture / transport / playback coordination:

* the WebSocket streaming variant
  (src/plasmo-my-email-ai/src/popup.tsx, content-script section):
  module-level mutable flags (isRecording, isProcessingCommand,
  shouldSendAudio, isWebSocketConnected, reconnectAttempts, ...) mutated by
  the handlers setupWebSocket, ws.onopen, ws.onclose, ws.onmessage,
  mediaRecorder.ondataavailable, startVoiceRecognition and
  stopVoiceRecognition;

* the TTS-queue variant (src/unnamed/part_000, content.js section):
  ttsQueue / isProcessingTTS / ttsTimeoutId and the functions speakText and
  processTTSQueue together with the utterance onend / onerror / watchdog
  callbacks.

Each handler is translated into a pure function from a state record to a
state record paired with the list of externally visible effects it performs
(sends on the socket, starts/stops of the recorder, scheduled timers,
speech-synthesis calls).  The JavaScript runs handlers to completion on a
single-threaded event loop, so one handler activation is one transition.
-/

namespace EmailManager

/-- State of the MediaRecorder object, mirroring MediaRecorder.state
('recording' / 'paused' / 'inactive'). -/
inductive MRState
  | recording
  | paused
  | inactive
deriving DecidableEq, Repr

/-- readyState of the WebSocket object (CONNECTING / OPEN / CLOSING /
CLOSED). -/
inductive WSReady
  | connecting
  | opened
  | closing
  | closed
deriving DecidableEq, Repr

/-- The module-level mutable variables of the streaming content script in
src/plasmo-my-email-ai/src/popup.tsx (content-script section).  The
WebSocket variable `ws` is `none` when the script holds no socket object;
`wsGen` counts how many WebSocket objects have been constructed, so that
creating a fresh connection is observable in the state.  `audioStream` is
`some active?` when a stream is held; `speaking` records whether a
speechSynthesis utterance started by showAIResponse is still playing. -/
structure PState where
  isRecording : Bool
  isProcessingCommand : Bool
  shouldSendAudio : Bool
  isWebSocketConnected : Bool
  ws : Option WSReady
  wsGen : Nat
  mediaRecorder : Option MRState
  audioStream : Option Bool
  audioContextOpen : Bool
  vadAnalyser : Bool
  recordingTimeout : Bool
  silenceTimeout : Bool
  isVoiceDetected : Bool
  speaking : Bool
  reconnectAttempts : Nat
deriving DecidableEq, Repr

/-- Externally visible effects of one handler activation of the streaming
content script. -/
inductive PEffect
  | sendChunk (size : Nat)
  | scheduleRetrySend (size : Nat)
  | sendStopMessage
  | sendKeepAlive
  | closeOldWS
  | closeNormal
  | openNewWS
  | getUserMedia
  | recorderStart
  | recorderResume
  | recorderStop
  | stopTracks
  | closeAudioCtx
  | scheduleReconnect (delayMs : Nat)
  | notifyStarted
  | notifyEnded
  | notifyReady
  | notifyResult
  | notifyCommand
  | speakReply
  | execAction
deriving DecidableEq, Repr

/-- MAX_RECONNECT_ATTEMPTS = 5 in popup.tsx. -/
def MAX_RECONNECT_ATTEMPTS : Nat := 5

/-- setupWebSocket (popup.tsx lines 226-243): if a socket exists and its
readyState is OPEN, return using the existing connection; otherwise close
any existing socket and construct a new WebSocket (readyState CONNECTING).
isWebSocketConnected is only mutated by the onopen / onclose / onerror
callbacks, not here. -/
def setupWebSocket (s : PState) : PState × List PEffect :=
  if s.ws = some WSReady.opened then (s, [])
  else
    let closeE : List PEffect := if s.ws.isSome then [PEffect.closeOldWS] else []
    ({ s with ws := some WSReady.connecting, wsGen := s.wsGen + 1 },
     closeE ++ [PEffect.openNewWS])

/-- ws.onopen (popup.tsx lines 239-243): marks the link connected and
resets the reconnection counter to 0.  The browser flips the socket's
readyState to OPEN before firing the callback. -/
def handleOpen (s : PState) : PState :=
  { s with ws := some WSReady.opened, isWebSocketConnected := true,
           reconnectAttempts := 0 }

/-- stopVoiceRecognition (popup.tsx lines 869-939): clears the session
flags and both timers, stops the recorder if it is recording, sends a stop
notice and closes the socket with code 1000 when one is held, closes the
AudioContext, stops and drops the audio stream, clears the VAD state and
resets the reconnection counter.  The unconditional VOICE_RECOGNITION_ENDED
runtime message at the end is the `notifyEnded` effect. -/
def stopVoiceRecognition (s : PState) : PState × List PEffect :=
  let s1 := { s with isRecording := false, isProcessingCommand := false,
                     shouldSendAudio := false, recordingTimeout := false,
                     silenceTimeout := false }
  let recStopE : List PEffect :=
    if s1.mediaRecorder = some MRState.recording then [PEffect.recorderStop] else []
  let s2 := if s1.mediaRecorder = some MRState.recording
    then { s1 with mediaRecorder := some MRState.inactive } else s1
  let wsE : List PEffect :=
    match s2.ws with
    | some w => (if w = WSReady.opened then [PEffect.sendStopMessage] else [])
                  ++ [PEffect.closeNormal]
    | none => []
  let s3 := match s2.ws with
    | some _ => { s2 with ws := none, isWebSocketConnected := false }
    | none => s2
  let ctxE : List PEffect := if s3.audioContextOpen then [PEffect.closeAudioCtx] else []
  let s4 := if s3.audioContextOpen then { s3 with audioContextOpen := false } else s3
  let trkE : List PEffect := if s4.audioStream.isSome then [PEffect.stopTracks] else []
  let s5 := match s4.audioStream with
    | some _ => { s4 with audioStream := none }
    | none => s4
  let s6 := { s5 with vadAnalyser := false, isVoiceDetected := false,
                      reconnectAttempts := 0 }
  (s6, recStopE ++ wsE ++ ctxE ++ trkE ++ [PEffect.notifyEnded])

/-- startVoiceRecognition (popup.tsx lines 752-866), success path: returns
immediately when isRecording is already true; otherwise runs
setupWebSocket, acquires the microphone stream, installs VAD analysis,
creates a MediaRecorder and starts it with a 250 ms timeslice, setting
isRecording and shouldSendAudio. -/
def startVoiceRecognition (s : PState) : PState × List PEffect :=
  if s.isRecording = true then (s, [])
  else
    let r := setupWebSocket s
    ({ r.1 with audioStream := some true, audioContextOpen := true,
                vadAnalyser := true, mediaRecorder := some MRState.recording,
                isRecording := true, shouldSendAudio := true },
     r.2 ++ [PEffect.getUserMedia, PEffect.recorderStart, PEffect.notifyStarted])

/-- ws.onmessage, ready_for_next branch (popup.tsx lines 290-370): clears
isProcessingCommand, re-enables shouldSendAudio, notifies the background
script, then checks the MediaRecorder: recording means nothing to do,
paused is resumed, inactive is restarted on the live stream (or the whole
recognition pipeline is restarted when the stream is dead), absent restarts
the pipeline.  Finally a keep-alive message is sent when the socket is
OPEN. -/
def handleReadyForNext (s : PState) : PState × List PEffect :=
  let s1 := { s with isProcessingCommand := false, shouldSendAudio := true }
  let r2 : PState × List PEffect :=
    match s1.mediaRecorder with
    | some MRState.recording => (s1, [])
    | some MRState.paused =>
        ({ s1 with mediaRecorder := some MRState.recording }, [PEffect.recorderResume])
    | some MRState.inactive =>
        if s1.audioStream = some true then
          ({ s1 with mediaRecorder := some MRState.recording, isRecording := true,
                     shouldSendAudio := true }, [PEffect.recorderStart])
        else startVoiceRecognition s1
    | none => startVoiceRecognition s1
  let keepE : List PEffect := if r2.1.ws = some WSReady.opened then [PEffect.sendKeepAlive] else []
  (r2.1, [PEffect.notifyReady] ++ r2.2 ++ keepE)

/-- ws.onmessage, final-transcript branch (popup.tsx lines 376-424): sets
isProcessingCommand and clears shouldSendAudio.  `hasReply` models a
message carrying result.ai_response with result.processing = false, in
which case showAIResponse runs the Gmail action and starts
speechSynthesis.speak on the reply (the `speaking` flag); otherwise the
transcript is forwarded as a VOICE_COMMAND.  The MediaRecorder is not
touched in either branch. -/
def handleFinalTranscript (hasReply : Bool) (s : PState) : PState × List PEffect :=
  let s1 := { s with isProcessingCommand := true, shouldSendAudio := false }
  if hasReply = true then
    ({ s1 with speaking := true },
     [PEffect.execAction, PEffect.speakReply, PEffect.notifyResult])
  else
    (s1, [PEffect.notifyResult, PEffect.notifyCommand])

/-- mediaRecorder.ondataavailable (popup.tsx lines 790-828): an empty blob
is ignored; when shouldSendAudio is false or isProcessingCommand is true
the chunk is skipped without transmission; when the socket is broken the
handler re-runs setupWebSocket and schedules one guarded delayed retry
send; otherwise the chunk is sent on the socket. -/
def handleDataAvailable (size : Nat) (s : PState) : PState × List PEffect :=
  if size = 0 then (s, [])
  else if s.shouldSendAudio = false ∨ s.isProcessingCommand = true then (s, [])
  else if s.isWebSocketConnected = false ∨ s.ws ≠ some WSReady.opened then
    let r := setupWebSocket s
    (r.1, r.2 ++ [PEffect.scheduleRetrySend size])
  else (s, [PEffect.sendChunk size])

/-- ws.onclose (popup.tsx lines 245-269): marks the link disconnected.  A
normal close (code 1000 or the explicit stop reason) resets the counter
and never retries.  An abnormal close while recording with fewer than
MAX_RECONNECT_ATTEMPTS prior attempts increments the counter and schedules
a reconnect after min(1000 * attempts, 5000) ms; at or beyond the ceiling
the whole recognition pipeline is stopped. -/
def handleClose (code : Nat) (reasonUserStop : Bool) (s : PState) : PState × List PEffect :=
  let s0 := { s with isWebSocketConnected := false }
  if code = 1000 ∨ reasonUserStop = true then
    ({ s0 with reconnectAttempts := 0 }, [])
  else if s0.isRecording = true ∧ s0.reconnectAttempts < MAX_RECONNECT_ATTEMPTS then
    ({ s0 with reconnectAttempts := s0.reconnectAttempts + 1 },
     [PEffect.scheduleReconnect (min (1000 * (s0.reconnectAttempts + 1)) 5000)])
  else if MAX_RECONNECT_ATTEMPTS ≤ s0.reconnectAttempts then
    stopVoiceRecognition s0
  else (s0, [])

/-- Feeds a list of produced chunk sizes to the ondataavailable handler in
order, accumulating the effects. -/
def runChunks : List Nat → PState → PState × List PEffect
  | [], s => (s, [])
  | n :: ns, s =>
    let r1 := handleDataAvailable n s
    let r2 := runChunks ns r1.1
    (r2.1, r1.2 ++ r2.2)

/-- A run of k consecutive abnormal transport closes: each close fires
ws.onclose with an abnormal code, and when the script is still recording
the scheduled reconnect callback runs setupWebSocket before the next close
arrives (consecutive failures, so onopen never fires in between). -/
def runAbnormalCloses : Nat → PState → PState × List PEffect
  | 0, s => (s, [])
  | Nat.succ n, s =>
    let r1 := handleClose 1006 false s
    let s1 := if r1.1.isRecording = true then (setupWebSocket r1.1).1 else r1.1
    let r2 := runAbnormalCloses n s1
    (r2.1, r1.2 ++ r2.2)

/-- Number of reconnection attempts scheduled in an effect trace. -/
def countReconnects (es : List PEffect) : Nat :=
  (es.filter fun e => match e with
    | PEffect.scheduleReconnect _ => true
    | _ => false).length

/-- The content-script state right after injection: nothing held, all
flags false (popup.tsx lines 205-223). -/
def idleState : PState :=
  { isRecording := false, isProcessingCommand := false, shouldSendAudio := false,
    isWebSocketConnected := false, ws := none, wsGen := 0, mediaRecorder := none,
    audioStream := none, audioContextOpen := false, vadAnalyser := false,
    recordingTimeout := false, silenceTimeout := false, isVoiceDetected := false,
    speaking := false, reconnectAttempts := 0 }

/-- The module-level mutable variables of the TTS-queue content script in
src/unnamed/part_000 (content.js section): the pending announcement queue,
the playback-focus flag isProcessingTTS, the currently playing utterance
(`none` when nothing was handed to speechSynthesis), the re-entrancy
markers recognition.__pausedForTTS and recognition.__manualStop, the
recognition run flag, the enable flag and whether the 8 second watchdog
timer ttsTimeoutId is armed. -/
structure TTSState where
  ttsQueue : List String
  isProcessingTTS : Bool
  current : Option String
  pausedForTTS : Bool
  manualStop : Bool
  isRecognizing : Bool
  extensionIsEnabled : Bool
  ttsTimeoutArmed : Bool
deriving DecidableEq, Repr

/-- Externally visible effects of one handler activation of the TTS-queue
content script. -/
inductive TEffect
  | speak (t : String)
  | recStop
  | recStart
  | cancelSynthesis
  | armWatchdog (ms : Nat)
  | logDuplicate
  | logTimeout
deriving DecidableEq, Repr

/-- processTTSQueue (part_000 lines 386-544): an empty queue clears the
focus flag and returns; a call while focus is already held is ignored;
otherwise focus is acquired, the head announcement is shifted off the
queue, recognition is forcefully stopped (pausedForTTS / manualStop set,
recognition.stop() when running, isRecognizing then forced false), any
playing synthesis is cancelled, the 8000 ms watchdog is armed and the
announcement is handed to speechSynthesis.speak. -/
def processTTSQueue (s : TTSState) : TTSState × List TEffect :=
  match s.ttsQueue with
  | [] => ({ s with isProcessingTTS := false }, [])
  | t :: rest =>
    if s.isProcessingTTS = true then (s, [])
    else
      ({ s with isProcessingTTS := true, ttsQueue := rest,
                pausedForTTS := true, manualStop := true, isRecognizing := false,
                current := some t, ttsTimeoutArmed := true },
       (if s.isRecognizing = true then [TEffect.recStop] else [])
         ++ [TEffect.cancelSynthesis, TEffect.armWatchdog 8000, TEffect.speak t])

/-- speakText (part_000 lines 547-563): the enqueue operation of the
playback queue.  The duplicate check is `ttsQueue.includes(text) &&
ttsQueue.length > 0`: the text is dropped (with a duplicate log) only when
it is still pending in the queue.  Otherwise it is pushed, and queue
processing starts when no announcement currently holds focus. -/
def speakText (t : String) (s : TTSState) : TTSState × List TEffect :=
  if t ∈ s.ttsQueue ∧ s.ttsQueue ≠ [] then (s, [TEffect.logDuplicate])
  else
    let s1 := { s with ttsQueue := s.ttsQueue ++ [t] }
    if s1.isProcessingTTS = true then (s1, [])
    else processTTSQueue s1

/-- utterance.onend (part_000 lines 476-505): clears the watchdog,
releases focus, clears the pausedForTTS / manualStop markers, restarts
recognition after 1.5 s when the extension is enabled and recognition is
not running, and then (after 2 s) processes the next queued item. -/
def ttsOnEnd (s : TTSState) : TTSState × List TEffect :=
  let s1 := { s with ttsTimeoutArmed := false, isProcessingTTS := false,
                     pausedForTTS := false, manualStop := false, current := none }
  let r2 : TTSState × List TEffect :=
    if s1.extensionIsEnabled = true ∧ s1.isRecognizing = false then
      ({ s1 with isRecognizing := true }, [TEffect.recStart])
    else (s1, [])
  let r3 := processTTSQueue r2.1
  (r3.1, r2.2 ++ r3.2)

/-- utterance.onerror (part_000 lines 507-535): same release and restart
shape as onend, with longer delays. -/
def ttsOnError (s : TTSState) : TTSState × List TEffect :=
  ttsOnEnd s

/-- The 8 second watchdog handler (part_000 lines 448-470), which fires
when neither onend nor onerror arrived: releases focus, clears the
pausedForTTS / manualStop markers, restarts recognition after 1 s when the
extension is enabled and recognition is not running, then (after 2 s)
processes the next queued item.  It does not cancel the hung utterance. -/
def ttsWatchdogFire (s : TTSState) : TTSState × List TEffect :=
  let s1 := { s with isProcessingTTS := false, pausedForTTS := false,
                     manualStop := false, ttsTimeoutArmed := false }
  let r2 : TTSState × List TEffect :=
    if s1.extensionIsEnabled = true ∧ s1.isRecognizing = false then
      ({ s1 with isRecognizing := true }, [TEffect.recStart])
    else (s1, [])
  let r3 := processTTSQueue r2.1
  (r3.1, [TEffect.logTimeout] ++ r2.2 ++ r3.2)

/-- Number of times a given text is handed to speechSynthesis.speak in an
effect trace. -/
def speakCount (t : String) (es : List TEffect) : Nat :=
  es.count (TEffect.speak t)

/-- The TTS-queue script state with recognition running, the extension
enabled and nothing queued or playing. -/
def listeningTTSState : TTSState :=
  { ttsQueue := [], isProcessingTTS := false, current := none,
    pausedForTTS := false, manualStop := false, isRecognizing := true,
    extensionIsEnabled := true, ttsTimeoutArmed := false }

/-- Scenario-B shaped run: enqueue a text, enqueue the identical text
while the first announcement is mid-playback, then let the first playback
complete naturally (onend), accumulating all effects. -/
def enqueueTwiceMidPlayback (t : String) (s : TTSState) : TTSState × List TEffect :=
  let r1 := speakText t s
  let r2 := speakText t r1.1
  let r3 := ttsOnEnd r2.1
  (r3.1, r1.2 ++ r2.2 ++ r3.2)

/-- How many further reconnection attempts the onclose handler can still
schedule from a given state: the remaining distance to the ceiling while
recording, nothing otherwise. -/
def reconnectBudget (s : PState) : Nat :=
  if s.isRecording = true
  then MAX_RECONNECT_ATTEMPTS - min s.reconnectAttempts MAX_RECONNECT_ATTEMPTS
  else 0

/-- A state holding a WebSocket whose readyState is still CONNECTING while
a recording session is active. -/
def connectingState : PState :=
  { idleState with
      isRecording := true, shouldSendAudio := true,
      mediaRecorder := some MRState.recording, audioStream := some true,
      audioContextOpen := true, vadAnalyser := true,
      ws := some WSReady.connecting, wsGen := 1 }

/-- A fully established streaming state: recording, transmission enabled,
socket OPEN and connected, recorder recording. -/
def streamingState : PState :=
  { idleState with
      isRecording := true, shouldSendAudio := true,
      isWebSocketConnected := true, ws := some WSReady.opened, wsGen := 1,
      mediaRecorder := some MRState.recording, audioStream := some true,
      audioContextOpen := true, vadAnalyser := true }

/-- The state reached from a fresh injection by: startVoiceRecognition,
ws.onopen, a final transcript carrying an inline AI reply (which starts
speech playback), and then a ready_for_next message that arrives while the
reply is still being spoken. -/
def readyWhileSpeakingState : PState :=
  (handleReadyForNext
    (handleFinalTranscript true
      (handleOpen (startVoiceRecognition idleState).1)).1).1

/-- A hung playback (watchdog about to fire) with one further pending
announcement. -/
def hungWithNextState : TTSState :=
  { listeningTTSState with
      ttsQueue := ["next item"], isProcessingTTS := true,
      current := some "hung reply", pausedForTTS := true, manualStop := true,
      isRecognizing := false, ttsTimeoutArmed := true }

/-- A hung playback (watchdog about to fire) with an empty queue. -/
def hungEmptyState : TTSState :=
  { listeningTTSState with
      isProcessingTTS := true, current := some "hung reply",
      pausedForTTS := true, manualStop := true, isRecognizing := false,
      ttsTimeoutArmed := true }

/-- An idle TTS state with one pending announcement. -/
def pendingOneState : TTSState :=
  { listeningTTSState with ttsQueue := ["a"] }

end EmailManager

namespace EmailManager

/-! ## Helper lemmas -/

/-- Splitting a reconnect count over an appended effect trace. -/
theorem countReconnects_append (a b : List PEffect) :
    countReconnects (a ++ b) = countReconnects a + countReconnects b := by
  simp [countReconnects, List.filter_append]

/-- The ondataavailable handler transmits nothing and changes nothing
while a command is being processed. -/
theorem dataAvailable_skip_of_processing (n : Nat) (s : PState)
    (h : s.isProcessingCommand = true) : handleDataAvailable n s = (s, []) := by
  simp [handleDataAvailable, h]

/-- Any run of produced chunks is fully suppressed while a command is
being processed. -/
theorem runChunks_skip_of_processing (chunks : List Nat) (s : PState)
    (h : s.isProcessingCommand = true) : runChunks chunks s = (s, []) := by
  induction chunks with
  | nil => rfl
  | cons n ns ih =>
    simp [runChunks, dataAvailable_skip_of_processing n s h, ih]

/-- setupWebSocket never touches the session flags or the reconnection
counter. -/
theorem setup_preserves_session (s : PState) :
    (setupWebSocket s).1.isRecording = s.isRecording
  ∧ (setupWebSocket s).1.reconnectAttempts = s.reconnectAttempts := by
  by_cases h : s.ws = some WSReady.opened <;> simp [setupWebSocket, h]

/-- Field-level description of the state after stopVoiceRecognition, and
the fact that its effect trace schedules no reconnection. -/
theorem stop_spec (s : PState) :
    (stopVoiceRecognition s).1.isRecording = false
  ∧ (stopVoiceRecognition s).1.isProcessingCommand = false
  ∧ (stopVoiceRecognition s).1.shouldSendAudio = false
  ∧ (stopVoiceRecognition s).1.ws = none
  ∧ (stopVoiceRecognition s).1.audioStream = none
  ∧ (stopVoiceRecognition s).1.audioContextOpen = false
  ∧ (stopVoiceRecognition s).1.recordingTimeout = false
  ∧ (stopVoiceRecognition s).1.silenceTimeout = false
  ∧ (stopVoiceRecognition s).1.reconnectAttempts = 0
  ∧ countReconnects (stopVoiceRecognition s).2 = 0 := by
  rcases s with ⟨r, pc, sa, wc, w, g, mr, ast, ac, va, rt, st, vd, sp, ra⟩
  rcases mr with _ | (_ | _ | _) <;>
    rcases w with _ | (_ | _ | _ | _) <;>
      rcases ast with _ | ab <;>
        cases ac <;>
          simp [stopVoiceRecognition, countReconnects]

/-- Running stopVoiceRecognition a second time changes nothing and
performs only the redundant end notification. -/
theorem stop_idem (s : PState) :
    stopVoiceRecognition (stopVoiceRecognition s).1 =
      ((stopVoiceRecognition s).1, [PEffect.notifyEnded]) := by
  rcases s with ⟨r, pc, sa, wc, w, g, mr, ast, ac, va, rt, st, vd, sp, ra⟩
  rcases mr with _ | (_ | _ | _) <;>
    rcases w with _ | (_ | _ | _ | _) <;>
      rcases ast with _ | ab <;>
        cases ac <;>
          simp [stopVoiceRecognition]

/-- The remaining reconnection budget never exceeds the ceiling. -/
theorem budget_le_max (s : PState) :
    reconnectBudget s ≤ MAX_RECONNECT_ATTEMPTS := by
  unfold reconnectBudget
  split <;> omega

/-- setupWebSocket does not change the reconnection budget. -/
theorem budget_setup (t : PState) :
    reconnectBudget (setupWebSocket t).1 = reconnectBudget t := by
  obtain ⟨h1, h2⟩ := setup_preserves_session t
  simp [reconnectBudget, h1, h2]

/-- The conditional reconnect step between two closes does not change the
reconnection budget. -/
theorem budget_condSetup (t : PState) :
    reconnectBudget (if t.isRecording = true then (setupWebSocket t).1 else t) =
      reconnectBudget t := by
  by_cases h : t.isRecording = true <;> simp [h, budget_setup]

/-- One abnormal close consumes at least as much budget as it schedules:
the scheduled-attempt count of the step plus the remaining budget of the
resulting state is bounded by the budget before the step. -/
theorem close_step (s : PState) :
    countReconnects (handleClose 1006 false s).2 +
      reconnectBudget (handleClose 1006 false s).1 ≤ reconnectBudget s := by
  by_cases hlt : s.reconnectAttempts < 5
  · by_cases hrec : s.isRecording = true
    · simp [handleClose, hrec, hlt, reconnectBudget, countReconnects,
            MAX_RECONNECT_ATTEMPTS]
      omega
    · have h3 : ¬ (5 ≤ s.reconnectAttempts) := Nat.not_le.mpr hlt
      simp [handleClose, hrec, h3, reconnectBudget, countReconnects,
            MAX_RECONNECT_ATTEMPTS]
  · have hge : 5 ≤ s.reconnectAttempts := Nat.not_lt.mp hlt
    obtain ⟨hs1, -, -, -, -, -, -, -, -, hs10⟩ :=
      stop_spec { s with isWebSocketConnected := false }
    simp [handleClose, hlt, hge, hs10, reconnectBudget, hs1,
          MAX_RECONNECT_ATTEMPTS]

/-- Over any number of consecutive abnormal closes, the number of
scheduled reconnection attempts is bounded by the initial budget. -/
theorem runAbnormal_le_budget (k : Nat) (s : PState) :
    countReconnects (runAbnormalCloses k s).2 ≤ reconnectBudget s := by
  induction k generalizing s with
  | zero => simp [runAbnormalCloses, countReconnects]
  | succ n ih =>
    have hstep := close_step s
    have hcond := budget_condSetup (handleClose 1006 false s).1
    have hrest := ih (if (handleClose 1006 false s).1.isRecording = true
        then (setupWebSocket (handleClose 1006 false s).1).1
        else (handleClose 1006 false s).1)
    simp only [runAbnormalCloses, countReconnects_append]
    omega

end EmailManager

namespace EmailManager

/-! ## Claim theorems -/

/-- C1 counterexample: the half-duplex invariant fails on the streaming
content script.  From a fresh injection, run startVoiceRecognition, then
ws.onopen, then a final transcript with an inline AI reply (showAIResponse
hands the reply to speechSynthesis, so playback is active), then a
ready_for_next message that arrives while the reply is still being spoken.
The next produced chunk is transmitted on the socket even though playback
is not idle, so capture/transmission and speech playback are
simultaneously active. -/
theorem c1_counterexample :
    readyWhileSpeakingState.speaking = true
  ∧ (handleDataAvailable 100 readyWhileSpeakingState).2 = [PEffect.sendChunk 100] :=
  ⟨rfl, rfl⟩

/-- C1 amended: a chunk is transmitted only when shouldSendAudio is set,
isProcessingCommand is clear and the transport is connected with an OPEN
socket.  Transmission is suppressed between a final transcript and the
ready_for_next signal, but ready_for_next re-enables transmission without
consulting playback, so transmission may resume while the reply is still
being spoken. -/
theorem c1_amended_transmission_guard (size : Nat) (s : PState)
    (h : PEffect.sendChunk size ∈ (handleDataAvailable size s).2) :
    s.shouldSendAudio = true ∧ s.isProcessingCommand = false
  ∧ s.isWebSocketConnected = true ∧ s.ws = some WSReady.opened := by
  by_cases h0 : size = 0
  · rw [h0] at h
    simp [handleDataAvailable] at h
  · by_cases hws : s.ws = some WSReady.opened <;>
      by_cases hsome : s.ws.isSome <;>
        cases hsa : s.shouldSendAudio <;>
          cases hpc : s.isProcessingCommand <;>
            cases hwc : s.isWebSocketConnected <;>
              simp_all [handleDataAvailable, setupWebSocket]

/-- Witness for the C1 amended theorem at the concrete reachable state of
the counterexample trace. -/
theorem c1_amended_transmission_guard_witness :
    readyWhileSpeakingState.shouldSendAudio = true
  ∧ readyWhileSpeakingState.isProcessingCommand = false
  ∧ readyWhileSpeakingState.isWebSocketConnected = true
  ∧ readyWhileSpeakingState.ws = some WSReady.opened :=
  c1_amended_transmission_guard 100 readyWhileSpeakingState (by decide)

/-- C2: after a final transcript (with or without an inline reply), every
chunk the recorder produces before the next ready_for_next is skipped
without transmission and without any state change, and the MediaRecorder
itself is left untouched: the final-transcript handler neither stops the
recorder nor emits any recorder effect, and the suppressed-chunk runs
leave the whole state unchanged. -/
theorem c2_processing_suppresses_transmission_not_capture
    (s : PState) (hasReply : Bool) (chunks : List Nat) :
    runChunks chunks (handleFinalTranscript hasReply s).1 =
      ((handleFinalTranscript hasReply s).1, [])
  ∧ (handleFinalTranscript hasReply s).1.mediaRecorder = s.mediaRecorder
  ∧ PEffect.recorderStop ∉ (handleFinalTranscript hasReply s).2
  ∧ (handleFinalTranscript hasReply s).1.isProcessingCommand = true
  ∧ (handleFinalTranscript hasReply s).1.shouldSendAudio = false := by
  have hp : (handleFinalTranscript hasReply s).1.isProcessingCommand = true := by
    cases hasReply <;> simp [handleFinalTranscript]
  refine ⟨runChunks_skip_of_processing chunks _ hp, ?_, ?_, hp, ?_⟩ <;>
    cases hasReply <;> simp [handleFinalTranscript]

/-- C3: a run of consecutive abnormal closes starting from a fresh attempt
counter schedules at most MAX_RECONNECT_ATTEMPTS = 5 reconnection
attempts; a normal close (code 1000) schedules none and resets the
counter; and an abnormal close at or beyond the ceiling schedules none and
stops the session (isRecording becomes false via stopVoiceRecognition). -/
theorem c3_reconnect_ceiling (s t : PState) (k : Nat)
    (h5 : MAX_RECONNECT_ATTEMPTS ≤ t.reconnectAttempts) :
    countReconnects (runAbnormalCloses k s).2 ≤ MAX_RECONNECT_ATTEMPTS
  ∧ (handleClose 1000 false s).2 = []
  ∧ (handleClose 1000 false s).1.reconnectAttempts = 0
  ∧ countReconnects (handleClose 1006 false t).2 = 0
  ∧ (handleClose 1006 false t).1.isRecording = false := by
  have hnlt : ¬ (t.reconnectAttempts < MAX_RECONNECT_ATTEMPTS) := Nat.not_lt.mpr h5
  obtain ⟨ht1, -, -, -, -, -, -, -, -, ht10⟩ :=
    stop_spec { t with isWebSocketConnected := false }
  refine ⟨le_trans (runAbnormal_le_budget k s) (budget_le_max s), ?_, ?_, ?_, ?_⟩
  · simp [handleClose]
  · simp [handleClose]
  · simp [handleClose, hnlt, h5, ht10]
  · simp [handleClose, hnlt, h5, ht1]

/-- Witness for C3 at a concrete streaming state, with seven consecutive
abnormal closes and a state already at the ceiling. -/
theorem c3_reconnect_ceiling_witness :
    countReconnects (runAbnormalCloses 7 streamingState).2 ≤ MAX_RECONNECT_ATTEMPTS
  ∧ (handleClose 1000 false streamingState).2 = []
  ∧ (handleClose 1000 false streamingState).1.reconnectAttempts = 0
  ∧ countReconnects
      (handleClose 1006 false { streamingState with reconnectAttempts := 5 }).2 = 0
  ∧ (handleClose 1006 false
      { streamingState with reconnectAttempts := 5 }).1.isRecording = false :=
  c3_reconnect_ceiling streamingState { streamingState with reconnectAttempts := 5 }
    7 (by decide)

/-- C4: an abnormal close while recording below the ceiling increments the
reconnection counter from a to a + 1 and schedules the reconnect after
min(1000 * (a + 1), 5000) ms, i.e. attempt n is delayed n times the 1000
ms unit capped at 5000 ms; a successful reconnect (ws.onopen) resets the
counter to 0. -/
theorem c4_linear_backoff (s : PState)
    (hr : s.isRecording = true)
    (hlt : s.reconnectAttempts < MAX_RECONNECT_ATTEMPTS) :
    (handleClose 1006 false s).1.reconnectAttempts = s.reconnectAttempts + 1
  ∧ (handleClose 1006 false s).2 =
      [PEffect.scheduleReconnect (min (1000 * (s.reconnectAttempts + 1)) 5000)]
  ∧ (handleOpen s).reconnectAttempts = 0 := by
  refine ⟨?_, ?_, ?_⟩ <;> simp [handleClose, handleOpen, hr, hlt]

/-- Witness for C4: the second attempt is scheduled after 2000 ms. -/
theorem c4_linear_backoff_witness :
    (handleClose 1006 false
        { streamingState with reconnectAttempts := 1 }).1.reconnectAttempts =
      { streamingState with reconnectAttempts := 1 }.reconnectAttempts + 1
  ∧ (handleClose 1006 false { streamingState with reconnectAttempts := 1 }).2 =
      [PEffect.scheduleReconnect
        (min (1000 * ({ streamingState with reconnectAttempts := 1 }.reconnectAttempts + 1)) 5000)]
  ∧ (handleOpen { streamingState with reconnectAttempts := 1 }).reconnectAttempts = 0 :=
  c4_linear_backoff { streamingState with reconnectAttempts := 1 } rfl (by decide)

/-- C5 counterexample: enqueuing the Scenario-B text once starts its
playback (it is shifted off the queue and handed to speechSynthesis); a
second enqueue of the identical text while that playback is in progress is
NOT dropped — the dedup check only inspects the pending queue, which no
longer contains the text — so the duplicate is appended and, after the
first playback completes, the same text is spoken a second time: two
spoken outputs instead of exactly one. -/
theorem c5_counterexample :
    (speakText "You have 3 unread emails." listeningTTSState).1.current =
        some "You have 3 unread emails."
  ∧ (speakText "You have 3 unread emails." listeningTTSState).1.isProcessingTTS = true
  ∧ (speakText "You have 3 unread emails."
        (speakText "You have 3 unread emails." listeningTTSState).1).1.ttsQueue =
      ["You have 3 unread emails."]
  ∧ speakCount "You have 3 unread emails."
        (enqueueTwiceMidPlayback "You have 3 unread emails." listeningTTSState).2 = 2 :=
  ⟨rfl, rfl, rfl, rfl⟩

/-- C5 amended: a duplicate enqueue is dropped exactly when the text is
still pending in the queue (enqueued but not yet dequeued for playback):
in that case speakText changes nothing and only logs the duplicate.  A
duplicate arriving while the first announcement is mid-playback (already
shifted off the queue) is re-enqueued and spoken again. -/
theorem c5_amended_dedup_pending_only (t : String) (s : TTSState)
    (h : t ∈ s.ttsQueue) :
    speakText t s = (s, [TEffect.logDuplicate]) := by
  have hne : s.ttsQueue ≠ [] := List.ne_nil_of_mem h
  simp [speakText, h, hne]

/-- Witness for the C5 amended theorem: a duplicate of a still-pending
announcement is dropped. -/
theorem c5_amended_dedup_pending_only_witness :
    speakText "hello"
        { listeningTTSState with ttsQueue := ["hello"], isProcessingTTS := true } =
      ({ listeningTTSState with ttsQueue := ["hello"], isProcessingTTS := true },
       [TEffect.logDuplicate]) :=
  c5_amended_dedup_pending_only "hello"
    { listeningTTSState with ttsQueue := ["hello"], isProcessingTTS := true }
    (by decide)

/-- C6: the 8000 ms watchdog is armed on every playback acquisition, and
when it fires (neither onend nor onerror arrived) it force-releases
playback focus — isProcessingTTS and the pausedForTTS / manualStop
capture-suppression markers are reset, and recognition is restarted when
the extension is enabled — and the queue advances: the next pending item
is dequeued and handed to speechSynthesis. -/
theorem c6_watchdog_releases_and_advances (s t u : TTSState)
    (x y : String) (rest more : List String)
    (hq : s.ttsQueue = x :: rest)
    (ht : t.ttsQueue = [])
    (hten : t.extensionIsEnabled = true)
    (htrec : t.isRecognizing = false)
    (hu : u.ttsQueue = y :: more)
    (hup : u.isProcessingTTS = false) :
    (ttsWatchdogFire s).1.ttsQueue = rest
  ∧ (ttsWatchdogFire s).1.current = some x
  ∧ TEffect.speak x ∈ (ttsWatchdogFire s).2
  ∧ (ttsWatchdogFire t).1.isProcessingTTS = false
  ∧ (ttsWatchdogFire t).1.pausedForTTS = false
  ∧ (ttsWatchdogFire t).1.manualStop = false
  ∧ (ttsWatchdogFire t).1.isRecognizing = true
  ∧ TEffect.recStart ∈ (ttsWatchdogFire t).2
  ∧ TEffect.armWatchdog 8000 ∈ (processTTSQueue u).2 := by
  refine ⟨?_, ?_, ?_, ?_, ?_, ?_, ?_, ?_, ?_⟩
  · by_cases hc : s.extensionIsEnabled = true ∧ s.isRecognizing = false <;>
      simp [ttsWatchdogFire, processTTSQueue, hq, hc]
  · by_cases hc : s.extensionIsEnabled = true ∧ s.isRecognizing = false <;>
      simp [ttsWatchdogFire, processTTSQueue, hq, hc]
  · by_cases hc : s.extensionIsEnabled = true ∧ s.isRecognizing = false <;>
      simp [ttsWatchdogFire, processTTSQueue, hq, hc]
  · simp [ttsWatchdogFire, processTTSQueue, ht, hten, htrec]
  · simp [ttsWatchdogFire, processTTSQueue, ht, hten, htrec]
  · simp [ttsWatchdogFire, processTTSQueue, ht, hten, htrec]
  · simp [ttsWatchdogFire, processTTSQueue, ht, hten, htrec]
  · simp [ttsWatchdogFire, processTTSQueue, ht, hten, htrec]
  · simp [processTTSQueue, hu, hup]

/-- Witness for C6 at concrete states: a hung playback with one pending
item, a hung playback with an empty queue, and a fresh acquisition. -/
theorem c6_watchdog_releases_and_advances_witness :
    (ttsWatchdogFire hungWithNextState).1.ttsQueue = []
  ∧ (ttsWatchdogFire hungWithNextState).1.current = some "next item"
  ∧ TEffect.speak "next item" ∈ (ttsWatchdogFire hungWithNextState).2
  ∧ (ttsWatchdogFire hungEmptyState).1.isProcessingTTS = false
  ∧ (ttsWatchdogFire hungEmptyState).1.pausedForTTS = false
  ∧ (ttsWatchdogFire hungEmptyState).1.manualStop = false
  ∧ (ttsWatchdogFire hungEmptyState).1.isRecognizing = true
  ∧ TEffect.recStart ∈ (ttsWatchdogFire hungEmptyState).2
  ∧ TEffect.armWatchdog 8000 ∈ (processTTSQueue pendingOneState).2 :=
  c6_watchdog_releases_and_advances hungWithNextState hungEmptyState pendingOneState
    "next item" "a" [] [] rfl rfl rfl rfl rfl rfl

/-- C7: stopVoiceRecognition is idempotent and fully releasing: a second
call returns the same state and performs no resource operation (its only
effect is the redundant end notification); the first call leaves no
WebSocket, no audio stream, a closed AudioContext, cleared timers and
isRecording = false, from any starting state. -/
theorem c7_stop_idempotent_releases_all (s : PState) :
    (stopVoiceRecognition (stopVoiceRecognition s).1).1 = (stopVoiceRecognition s).1
  ∧ (stopVoiceRecognition (stopVoiceRecognition s).1).2 = [PEffect.notifyEnded]
  ∧ (stopVoiceRecognition s).1.isRecording = false
  ∧ (stopVoiceRecognition s).1.ws = none
  ∧ (stopVoiceRecognition s).1.audioStream = none
  ∧ (stopVoiceRecognition s).1.audioContextOpen = false
  ∧ (stopVoiceRecognition s).1.recordingTimeout = false
  ∧ (stopVoiceRecognition s).1.silenceTimeout = false := by
  obtain ⟨h1, -, -, h4, h5, h6, h7, h8, -, -⟩ := stop_spec s
  have hi := stop_idem s
  exact ⟨by rw [hi], by rw [hi], h1, h4, h5, h6, h7, h8⟩

/-- C8 counterexample: connect is not idempotent while the link is still
Connecting.  On a state holding a CONNECTING socket, setupWebSocket closes
the existing socket and constructs a new WebSocket object (the connection
generation increases), instead of leaving the existing link unchanged. -/
theorem c8_counterexample :
    connectingState.ws = some WSReady.connecting
  ∧ (setupWebSocket connectingState).1.wsGen = connectingState.wsGen + 1
  ∧ (setupWebSocket connectingState).2 = [PEffect.closeOldWS, PEffect.openNewWS] :=
  ⟨rfl, rfl, rfl⟩

/-- C8 amended: connect is idempotent only when the link is already
Connected (readyState OPEN): then no new connection is created and the
state is left unchanged.  When the link is still Connecting, the existing
socket is closed and a new connection is opened. -/
theorem c8_amended_connect_idempotent_open (s : PState)
    (h : s.ws = some WSReady.opened) :
    setupWebSocket s = (s, []) := by
  simp [setupWebSocket, h]

/-- Witness for the C8 amended theorem at a concrete connected state. -/
theorem c8_amended_connect_idempotent_open_witness :
    setupWebSocket streamingState = (streamingState, []) :=
  c8_amended_connect_idempotent_open streamingState rfl

/-- C9: a duplicate ready_for_next arriving while the controller is
already streaming (processing flag clear, audio-send flag set, recorder
recording) leaves the whole state unchanged. -/
theorem c9_ready_for_next_idempotent (s : PState)
    (h1 : s.isProcessingCommand = false)
    (h2 : s.shouldSendAudio = true)
    (h3 : s.mediaRecorder = some MRState.recording) :
    (handleReadyForNext s).1 = s := by
  cases s
  simp_all [handleReadyForNext]

/-- Witness for C9 at the concrete streaming state. -/
theorem c9_ready_for_next_idempotent_witness :
    (handleReadyForNext streamingState).1 = streamingState :=
  c9_ready_for_next_idempotent streamingState rfl rfl rfl

/-- C10: startVoiceRecognition returns immediately when a recording
session is already active: the state is unchanged and no effect (no new
WebSocket, no getUserMedia, no new MediaRecorder) is performed. -/
theorem c10_start_noop_when_recording (s : PState)
    (h : s.isRecording = true) :
    startVoiceRecognition s = (s, []) := by
  simp [startVoiceRecognition, h]

/-- Witness for C10 at the concrete streaming state. -/
theorem c10_start_noop_when_recording_witness :
    startVoiceRecognition streamingState = (streamingState, []) :=
  c10_start_noop_when_recording streamingState rfl

end EmailManager
